import Mathlib

/-!
Shallow embedding of the report-preparation engine of
`src/nr_cisco_support.py` (nornir-cisco-maintenance).

The Python code operates on nested dict/list structures produced by the
Cisco support APIs and an IBM TSS Excel inventory.  We model Python
values with the inductive type `PyVal` (strings, `None`, dicts as
association lists in insertion order, lists), and Python exceptions with
the error monad `Except PyErr`.  Each `prepare_report_data_*` function of
the source is translated one-to-one; loops that append one element per
iteration to a shared per-column list are rendered with the sequential
monadic map `mapME`, which performs the appends in the same order and
stops at the first raised exception, exactly like the Python loops.
-/

/-- A Python value as it occurs in the serials dictionary and in the
pandas rows of this program: a string, `None`, a dict (association list
in insertion order) or a list. -/
inductive PyVal where
  | str : String → PyVal
  | pynone : PyVal
  | dict : List (String × PyVal) → PyVal
  | list : List PyVal → PyVal
deriving Repr

/-- A Python exception as raised by the translated code. -/
inductive PyErr where
  | keyError : String → PyErr
  | indexError : PyErr
  | typeError : PyErr
  | nameError : String → PyErr
  | valueError : String → PyErr
deriving Repr, DecidableEq

/-- Structural equality of Python values (Python `==`). -/
def PyVal.beq : PyVal → PyVal → Bool
  | .str a, .str b => a == b
  | .pynone, .pynone => true
  | .dict a, .dict b => beqEntries a b
  | .list a, .list b => beqVals a b
  | _, _ => false
where
  beqEntries : List (String × PyVal) → List (String × PyVal) → Bool
    | [], [] => true
    | (k₁, v₁) :: t₁, (k₂, v₂) :: t₂ => k₁ == k₂ && PyVal.beq v₁ v₂ && beqEntries t₁ t₂
    | _, _ => false
  beqVals : List PyVal → List PyVal → Bool
    | [], [] => true
    | a :: t₁, b :: t₂ => PyVal.beq a b && beqVals t₁ t₂
    | _, _ => false

instance : BEq PyVal := ⟨PyVal.beq⟩

/-- A Python dict with string keys, in insertion order. -/
abbrev PyDict := List (String × PyVal)

/-- One serial number's record in the serials dictionary. -/
abbrev SerialRec := PyDict

/-- The serials dictionary: identifier → record, in insertion order. -/
abbrev SerialsDict := List (String × SerialRec)

/-- First binding of a key in a dict (Python dicts have unique keys, so
the first binding is the binding). -/
def lookupFirst (d : PyDict) (k : String) : Option PyVal :=
  match d with
  | [] => none
  | kv :: t => if kv.1 == k then some kv.2 else lookupFirst t k

/-- Python `d[k]` on a dict: the value, or a `KeyError`. -/
def pyGet (d : PyDict) (k : String) : Except PyErr PyVal :=
  match lookupFirst d k with
  | some v => .ok v
  | none => .error (.keyError k)

/-- Calling `.items()` on a value: only dicts support it. -/
def asDict : PyVal → Except PyErr PyDict
  | .dict d => .ok d
  | _ => .error .typeError

/-- Indexing a value as a list: only lists support it here. -/
def asList : PyVal → Except PyErr (List PyVal)
  | .list l => .ok l
  | _ => .error .typeError

/-- Python dict assignment `d[k] = v`: replaces the value of an existing
binding in place, else appends the new binding at the end. -/
def recSet (d : PyDict) (k : String) (v : PyVal) : PyDict :=
  if d.any (fun kv => kv.1 == k) then
    d.map (fun kv => if kv.1 == k then (k, v) else kv)
  else
    d ++ [(k, v)]

/-- `leadsWith p l` is true when `p` is an initial segment of `l`
(Python `str.startswith`). -/
def leadsWith : List Char → List Char → Bool
  | [], _ => true
  | _ :: _, [] => false
  | a :: as, b :: bs => a == b && leadsWith as bs

/-- `hasSub n h` is true when `n` occurs as a contiguous run inside `h`
(Python `needle in haystack` on strings). -/
def hasSub (n : List Char) : List Char → Bool
  | [] => n.isEmpty
  | c :: t => leadsWith n (c :: t) || hasSub n t

/-- Python `needle in hay` for strings. -/
def pyInStr (needle hay : String) : Bool :=
  hasSub needle.data hay.data

/-- Python `needle in v` for an arbitrary value `v`: substring test on a
string, key test on a dict, membership on a list, `TypeError` on `None`. -/
def pyInVal (needle : String) : PyVal → Except PyErr Bool
  | .str s => .ok (pyInStr needle s)
  | .dict d => .ok (d.any (fun kv => kv.1 == needle))
  | .list l => .ok (l.contains (.str needle))
  | .pynone => .error .typeError

/-- Sequential monadic map over `Except`: evaluates the body left to
right and stops at the first exception, like a Python `for` loop that
appends one result per iteration. -/
def mapME (f : α → Except PyErr β) : List α → Except PyErr (List β)
  | [] => .ok []
  | a :: t =>
    match f a with
    | .error e => .error e
    | .ok b =>
      match mapME f t with
      | .error e => .error e
      | .ok r => .ok (b :: r)

/-- A successful `mapME` produces one output per input. -/
theorem mapME_ok_length {f : α → Except PyErr β} {l : List α} {r : List β}
    (h : mapME f l = .ok r) : r.length = l.length := by
  induction l generalizing r with
  | nil => cases h; rfl
  | cons a t ih =>
    rw [mapME] at h
    cases hf : f a with
    | error e => rw [hf] at h; cases h
    | ok b =>
      rw [hf] at h
      cases ht : mapME f t with
      | error e => rw [ht] at h; cases h
      | ok rt =>
        rw [ht] at h
        cases h
        simp [ih ht]

/-- Every output of a successful `mapME` satisfies any property enjoyed
by all successful results of the body. -/
theorem mapME_ok_forall {f : α → Except PyErr β} {l : List α} {r : List β}
    (h : mapME f l = .ok r) (p : β → Prop)
    (hf : ∀ a b, f a = .ok b → p b) : ∀ b ∈ r, p b := by
  induction l generalizing r with
  | nil => cases h; intro b hb; cases hb
  | cons a t ih =>
    rw [mapME] at h
    cases hfa : f a with
    | error e => rw [hfa] at h; cases h
    | ok b =>
      rw [hfa] at h
      cases ht : mapME f t with
      | error e => rw [ht] at h; cases h
      | ok rt =>
        rw [ht] at h
        cases h
        intro x hx
        rcases List.mem_cons.mp hx with rfl | hx
        · exact hf a x hfa
        · exact ih ht x hx

/-- Positional correspondence of a successful `mapME`: the i-th output
is a successful run of the body on the i-th input. -/
theorem mapME_ok_get {f : α → Except PyErr β} {l : List α} {r : List β}
    (h : mapME f l = .ok r) :
    ∀ i a, l.get? i = some a → ∃ b, r.get? i = some b ∧ f a = .ok b := by
  induction l generalizing r with
  | nil => intro i a ha; cases ha
  | cons x t ih =>
    rw [mapME] at h
    cases hfx : f x with
    | error e => rw [hfx] at h; cases h
    | ok b =>
      rw [hfx] at h
      cases ht : mapME f t with
      | error e => rw [ht] at h; cases h
      | ok rt =>
        rw [ht] at h
        cases h
        intro i a ha
        cases i with
        | zero => cases ha; exact ⟨b, rfl, hfx⟩
        | succ j => exact ih ht j a ha

/-- If every body call succeeds, the whole `mapME` succeeds. -/
theorem mapME_isOk_of_forall {f : α → Except PyErr β} {l : List α}
    (h : ∀ a ∈ l, (f a).isOk = true) : (mapME f l).isOk = true := by
  induction l with
  | nil => rfl
  | cons a t ih =>
    rw [mapME]
    have ha := h a (List.mem_cons_self a t)
    cases hfa : f a with
    | error e => rw [hfa] at ha; cases ha
    | ok b =>
      have ht := ih (fun x hx => h x (List.mem_cons_of_mem a hx))
      cases hmt : mapME f t with
      | error e => rw [hmt] at ht; cases ht
      | ok rt => simp [Except.isOk, Except.toBool, hmt]

/-- If some element's body call fails, the whole `mapME` fails. -/
theorem mapME_not_isOk {f : α → Except PyErr β} {l : List α} {a : α}
    (ha : a ∈ l) (hf : (f a).isOk = false) : (mapME f l).isOk = false := by
  induction l with
  | nil => cases ha
  | cons x t ih =>
    rw [mapME]
    rcases List.mem_cons.mp ha with rfl | hx
    · cases hfa : f a with
      | error e => rfl
      | ok b => rw [hfa] at hf; cases hf
    · cases hfx : f x with
      | error e => rfl
      | ok b =>
        have := ih hx
        cases hmt : mapME f t with
        | error e => rfl
        | ok rt => rw [hmt] at this; cases this

/-! ## Report constants (`EXCEL_COLUMN_ORDER`, headers, messages)

Transcribed from the constants block and the per-function dict-key
definitions of `nr_cisco_support.py`. -/

/-- `EXCEL_COLUMN_ORDER` of the source: the configured column order for
the plain (no IBM TSS) report. -/
def EXCEL_COLUMN_ORDER : List String :=
  ["host", "sr_no", "sr_no_owner", "is_covered", "coverage_end_date", "coverage_action_needed",
   "api_action_needed", "contract_site_customer_name", "contract_site_address1", "contract_site_city",
   "contract_site_state_province", "contract_site_country", "covered_product_line_end_date",
   "service_contract_number", "service_line_descr", "warranty_end_date", "warranty_type",
   "warranty_type_description", "item_description", "item_type", "orderable_pid", "ErrorDescription",
   "ErrorDataType", "ErrorDataValue", "EOXExternalAnnouncementDate", "EndOfSaleDate",
   "EndOfSWMaintenanceReleases", "EndOfRoutineFailureAnalysisDate", "EndOfServiceContractRenewal",
   "LastDateOfSupport", "EndOfSvcAttachDate", "UpdatedTimeStamp", "MigrationInformation",
   "MigrationProductId", "MigrationProductName", "MigrationStrategy", "MigrationProductInfoURL"]

/-- `EXCEL_COLUMN_ORDER_WITH_TSS` of the source: the column order for the
report variant that includes the IBM TSS analysis. -/
def EXCEL_COLUMN_ORDER_WITH_TSS : List String :=
  ["host", "sr_no", "sr_no_owner", "is_covered", "coverage_end_date", "coverage_action_needed",
   "api_action_needed", "tss_serial", "tss_status", "contract_site_customer_name",
   "contract_site_address1", "contract_site_city", "contract_site_state_province", "contract_site_country",
   "covered_product_line_end_date", "service_contract_number", "tss_contract", "tss_service_level",
   "service_line_descr", "warranty_end_date", "warranty_type", "warranty_type_description",
   "item_description", "item_type", "orderable_pid", "ErrorDescription", "ErrorDataType", "ErrorDataValue",
   "EOXExternalAnnouncementDate", "EndOfSaleDate", "EndOfSWMaintenanceReleases",
   "EndOfRoutineFailureAnalysisDate", "EndOfServiceContractRenewal", "LastDateOfSupport",
   "EndOfSvcAttachDate", "UpdatedTimeStamp", "MigrationInformation", "MigrationProductId",
   "MigrationProductName", "MigrationStrategy", "MigrationProductInfoURL"]

/-- `DATE_COLUMN_LIST` of the source: the columns converted to pandas
dates and conditionally formatted by date. -/
def DATE_COLUMN_LIST : List String :=
  ["coverage_end_date", "EOXExternalAnnouncementDate", "EndOfSaleDate", "EndOfSWMaintenanceReleases",
   "EndOfRoutineFailureAnalysisDate", "EndOfServiceContractRenewal", "LastDateOfSupport",
   "EndOfSvcAttachDate"]

/-- Dict keys of `owner_coverage_status` in
`prepare_report_data_owner_coverage_by_serial_number`. -/
def oc_headers : List String := ["sr_no_owner", "coverage_end_date"]

/-- Dict keys of `coverage_summary` in
`prepare_report_data_coverage_summary_by_serial_numbers`. -/
def cov_headers : List String :=
  ["sr_no", "is_covered", "contract_site_customer_name", "contract_site_address1",
   "contract_site_city", "contract_site_state_province", "contract_site_country",
   "covered_product_line_end_date", "service_contract_number", "service_line_descr",
   "warranty_end_date", "warranty_type", "warranty_type_description", "item_description",
   "item_type", "orderable_pid"]

/-- Dict keys of `end_of_life` in `prepare_report_data_eox_by_serial_numbers`. -/
def eox_headers : List String :=
  ["EOXExternalAnnouncementDate", "EndOfSaleDate", "EndOfSWMaintenanceReleases",
   "EndOfSecurityVulSupportDate", "EndOfRoutineFailureAnalysisDate",
   "EndOfServiceContractRenewal", "LastDateOfSupport", "EndOfSvcAttachDate",
   "UpdatedTimeStamp", "MigrationInformation", "MigrationProductId", "MigrationProductName",
   "MigrationStrategy", "MigrationProductInfoURL", "ErrorDescription", "ErrorDataType",
   "ErrorDataValue"]

/-! ## `prepare_report_data_host` -/

/-- `prepare_report_data_host`: one `host` column with each record's
`host` value, in identifier iteration order (`item["host"]` raises
`KeyError` when absent). -/
def prepare_report_data_host (sd : SerialsDict) : Except PyErr (List (String × List PyVal)) :=
  match mapME (fun p => pyGet p.2 "host") sd with
  | .error e => .error e
  | .ok hosts => .ok [("host", hosts)]

/-! ## `prepare_report_data_owner_coverage_by_serial_number` -/

/-- The values appended for one serial while scanning one header over
`sr_no["SNIgetOwnerCoverageStatusBySerialNumbers"].items()` (the inner
double loop body of the source: `if header == key` and
`if key in owner_coverage_status`). -/
def ocSerialMatches (header : String) (rec : SerialRec) : Except PyErr (List PyVal) :=
  match pyGet rec "SNIgetOwnerCoverageStatusBySerialNumbers" with
  | .error e => .error e
  | .ok src =>
    match asDict src with
    | .error e => .error e
    | .ok items =>
      .ok (items.filterMap (fun kv =>
        if header == kv.1 && oc_headers.contains kv.1 then some kv.2 else none))

/-- One header's column in
`prepare_report_data_owner_coverage_by_serial_number`.  NOTE the
faithful translation of the source's indentation: `success` is reset for
every serial, but the `if not success: append("")` sits OUTSIDE the
serial loop, so after the loop only the LAST serial's flag is consulted
and at most one empty string is appended at the END of the column.  On
an empty serials dict the name `success` is unbound (`NameError`). -/
def ocColumn (sd : SerialsDict) (header : String) : Except PyErr (List PyVal) :=
  match mapME (fun p => ocSerialMatches header p.2) sd with
  | .error e => .error e
  | .ok parts =>
    match parts.getLast? with
    | none => .error (.nameError "success")
    | some lastPart =>
      .ok (if lastPart.isEmpty then parts.flatten ++ [PyVal.str ""] else parts.flatten)

/-- `prepare_report_data_owner_coverage_by_serial_number`: the
`sr_no_owner` and `coverage_end_date` columns. -/
def prepare_report_data_owner_coverage_by_serial_number (sd : SerialsDict) :
    Except PyErr (List (String × List PyVal)) :=
  mapME (fun h =>
    match ocColumn sd h with
    | .error e => .error e
    | .ok c => .ok (h, c)) oc_headers

/-! ## `prepare_report_data_coverage_summary_by_serial_numbers` -/

/-- The values appended for one serial while scanning one header in
`prepare_report_data_coverage_summary_by_serial_numbers`: the general
coverage details of `sr_no["SNIgetCoverageSummaryBySerialNumbers"]`,
then the first entry of `orderable_pid_list` (an unconditional
`[0]`-index: `IndexError` on an empty list, `KeyError` when the key is
absent), and an empty-string sentinel when nothing matched. -/
def covScanSerial (header : String) (rec : SerialRec) : Except PyErr (List PyVal) :=
  match pyGet rec "SNIgetCoverageSummaryBySerialNumbers" with
  | .error e => .error e
  | .ok src =>
    match asDict src with
    | .error e => .error e
    | .ok top =>
      let m1 := top.filterMap (fun kv =>
        if header == kv.1 && cov_headers.contains kv.1 then some kv.2 else none)
      match pyGet top "orderable_pid_list" with
      | .error e => .error e
      | .ok oplVal =>
        match asList oplVal with
        | .error e => .error e
        | .ok opl =>
          match opl.head? with
          | none => .error .indexError
          | some first =>
            match asDict first with
            | .error e => .error e
            | .ok firstD =>
              let m2 := firstD.filterMap (fun kv =>
                if header == kv.1 && cov_headers.contains kv.1 then some kv.2 else none)
              let cells := m1 ++ m2
              .ok (if cells.isEmpty then [PyVal.str ""] else cells)

/-- One header's column of the coverage summary (here the
`if not success: append("")` IS inside the serial loop, so every serial
contributes at least one cell). -/
def covColumn (sd : SerialsDict) (header : String) : Except PyErr (List PyVal) :=
  match mapME (fun p => covScanSerial header p.2) sd with
  | .error e => .error e
  | .ok parts => .ok parts.flatten

/-- `prepare_report_data_coverage_summary_by_serial_numbers`. -/
def prepare_report_data_coverage_summary_by_serial_numbers (sd : SerialsDict) :
    Except PyErr (List (String × List PyVal)) :=
  mapME (fun h =>
    match covColumn sd h with
    | .error e => .error e
    | .ok c => .ok (h, c)) cov_headers

/-! ## `prepare_report_data_eox_by_serial_numbers` -/

/-- The top-level scan of one EOX item: a value is taken only when the
key matches the header AND the value is a dict containing the key
`value`, which is then unwrapped (`if isinstance(value, dict): if
"value" in value: append(value["value"])`). -/
def eoxTopMatch (header : String) (kv : String × PyVal) : Option PyVal :=
  if header == kv.1 then
    match kv.2 with
    | .dict d => lookupFirst d "value"
    | _ => none
  else none

/-- The values appended for one serial while scanning one header in
`prepare_report_data_eox_by_serial_numbers`: the top-level EOX dates
(dict-wrapped), then `EOXgetBySerialNumbers["EOXMigrationDetails"]`
(a `KeyError` when the block is absent), then the `EOXError` block when
present, and an empty-string sentinel when nothing matched. -/
def eoxScanSerial (header : String) (rec : SerialRec) : Except PyErr (List PyVal) :=
  match pyGet rec "EOXgetBySerialNumbers" with
  | .error e => .error e
  | .ok src =>
    match asDict src with
    | .error e => .error e
    | .ok top =>
      let m1 := top.filterMap (eoxTopMatch header)
      match pyGet top "EOXMigrationDetails" with
      | .error e => .error e
      | .ok migVal =>
        match asDict migVal with
        | .error e => .error e
        | .ok mig =>
          let m2 := mig.filterMap (fun kv =>
            if header == kv.1 && eox_headers.contains kv.1 then some kv.2 else none)
          let m3res : Except PyErr (List PyVal) :=
            match lookupFirst top "EOXError" with
            | some errVal =>
              match asDict errVal with
              | .error e => .error e
              | .ok errD =>
                .ok (errD.filterMap (fun kv =>
                  if header == kv.1 && eox_headers.contains kv.1 then some kv.2 else none))
            | none => .ok []
          match m3res with
          | .error e => .error e
          | .ok m3 =>
            let cells := m1 ++ m2 ++ m3
            .ok (if cells.isEmpty then [PyVal.str ""] else cells)

/-- One header's column of the end-of-life data. -/
def eoxColumn (sd : SerialsDict) (header : String) : Except PyErr (List PyVal) :=
  match mapME (fun p => eoxScanSerial header p.2) sd with
  | .error e => .error e
  | .ok parts => .ok parts.flatten

/-- `prepare_report_data_eox_by_serial_numbers`. -/
def prepare_report_data_eox_by_serial_numbers (sd : SerialsDict) :
    Except PyErr (List (String × List PyVal)) :=
  mapME (fun h =>
    match eoxColumn sd h with
    | .error e => .error e
    | .ok c => .ok (h, c)) eox_headers

/-! ## `prepare_report_data_act_needed` -/

/-- Message literals of `prepare_report_data_act_needed` and
`prepare_report_data_tss` (including the source's typo). -/
def api_no_action_msg : String :=
  "No action needed (API user is associated with contract and device)"

def api_action_msg : String :=
  "Action needed (No associattion between api user, contract and device)"

def cov_no_action_msg : String :=
  "No action needed (Device is covered by a maintenance contract)"

def cov_action_msg : String :=
  "Action needed (Device is not covered by a maintenance contract)"

def tss_cov_both_msg : String := "No action needed (Covered by IBM TSS and Cisco)"

def tss_cov_only_tss_msg : String :=
  "Action needed (Covered by IBM TSS, but Cisco coverage missing)"

def tss_cov_smartnet_msg : String := "No action needed (Covered by Cisco SmartNet)"

def tss_cov_missing_msg : String :=
  "Action needed (Cisco SmartNet or IBM TSS coverage missing)"

def tss_cov_remove_msg : String :=
  "Action needed (Remove serial from IBM TSS inventory as device is decommissioned)"

def tss_api_no_data_msg : String := "No Cisco API data as serial is not part of column sr_no"

/-- The ownership (api) classification of the plain run, restricted to
string flag values: `"YES" in records[...]["sr_no_owner"]` is Python's
SUBSTRING containment, not string equality. -/
def api_action_needed_msg (flag : String) : String :=
  if pyInStr "YES" flag then api_no_action_msg else api_action_msg

/-- The coverage classification of the plain run, restricted to string
flag values (`"YES" in records[...]["is_covered"]`). -/
def coverage_action_needed_msg (flag : String) : String :=
  if pyInStr "YES" flag then cov_no_action_msg else cov_action_msg

/-- The coverage classification of the TSS run for an identifier found
in the IBM TSS inventory. -/
def tss_coverage_matched_msg (flag : String) : String :=
  if pyInStr "YES" flag then tss_cov_both_msg else tss_cov_only_tss_msg

/-- The coverage classification of the TSS run for an identifier not
found in the IBM TSS inventory. -/
def tss_coverage_unmatched_msg (flag : String) : String :=
  if pyInStr "YES" flag then tss_cov_smartnet_msg else tss_cov_missing_msg

/-- The ownership (api) classification of the TSS run: both the matched
and the unmatched branch of the source use the identical test and the
identical two message literals as the plain run. -/
def tss_api_action_needed_msg (flag : String) : String :=
  if pyInStr "YES" flag then api_no_action_msg else api_action_msg

/-- The body of the `prepare_report_data_act_needed` loop for one
serial record: reads the two flags and classifies them.  Returns
`(coverage message, api message)`. -/
def actNeededStep (rec : SerialRec) : Except PyErr (PyVal × PyVal) :=
  match pyGet rec "SNIgetOwnerCoverageStatusBySerialNumbers" with
  | .error e => .error e
  | .ok owner =>
    match asDict owner with
    | .error e => .error e
    | .ok ownerD =>
      match pyGet ownerD "sr_no_owner" with
      | .error e => .error e
      | .ok flag =>
        match pyInVal "YES" flag with
        | .error e => .error e
        | .ok hasY =>
          let apiMsg := if hasY then api_no_action_msg else api_action_msg
          match pyGet rec "SNIgetCoverageSummaryBySerialNumbers" with
          | .error e => .error e
          | .ok covSrc =>
            match asDict covSrc with
            | .error e => .error e
            | .ok covD =>
              match pyGet covD "is_covered" with
              | .error e => .error e
              | .ok covFlag =>
                match pyInVal "YES" covFlag with
                | .error e => .error e
                | .ok hasC =>
                  let covMsg := if hasC then cov_no_action_msg else cov_action_msg
                  .ok (PyVal.str covMsg, PyVal.str apiMsg)

/-- `prepare_report_data_act_needed`: the `coverage_action_needed` and
`api_action_needed` columns of the plain run. -/
def prepare_report_data_act_needed (sd : SerialsDict) :
    Except PyErr (List (String × List PyVal)) :=
  match mapME (fun p => actNeededStep p.2) sd with
  | .error e => .error e
  | .ok rows =>
    .ok [("coverage_action_needed", rows.map (fun r => r.1)),
         ("api_action_needed", rows.map (fun r => r.2))]

/-! ## `prepare_report_data_tss`

The IBM TSS Excel file is modeled from the point after `pd.read_excel`
and the column-header normalization (lowercase, underscores, `tss_`
prefix): a list of rows, each a dict from normalized column name to
cell value (`PyVal.pynone` for the blank cells that
`fillna(...).replace(...)` turns into Python `None`).  The remaining
normalization steps of the source that the claims depend on — the
upper-casing of `tss_serial` and the `OEM == "Cisco"` row filter — are
embedded below. -/

/-- One row of the normalized IBM TSS dataframe. -/
abbrev TssRow := PyDict

/-- The `tss_` columns configured in `EXCEL_COLUMN_ORDER_WITH_TSS`
(the source collects every column of the constant with the
`tss_` name start). -/
def tss_columns : List String :=
  EXCEL_COLUMN_ORDER_WITH_TSS.filter (fun c => leadsWith "tss_".data c.data)

/-- Characterwise ASCII upper-casing (`str.upper` on the serial
strings, which are ASCII alphanumerics). -/
def strUpper (s : String) : String :=
  ⟨s.data.map Char.toUpper⟩

/-- `df.tss_serial.str.upper()`: upper-case a string cell, leave other
cells (e.g. `None`) unchanged. -/
def upperVal : PyVal → PyVal
  | .str s => .str (strUpper s)
  | v => v

/-- The dataframe normalization used by `prepare_report_data_tss`:
upper-case the `tss_serial` column, then keep only the rows whose
`tss_oem` cell equals the string `"Cisco"`
(`df = df[df.tss_oem == "Cisco"]`). -/
def tssNormalizeRows (rows : List TssRow) : List TssRow :=
  (rows.map (fun r =>
    r.map (fun kv => if kv.1 == "tss_serial" then (kv.1, upperVal kv.2) else kv))).filter
    (fun r => lookupFirst r "tss_oem" == some (.str "Cisco"))

/-- `df["tss_serial"].tolist()`. -/
def tssSerialListOf (df : List TssRow) : Except PyErr (List PyVal) :=
  mapME (fun r => pyGet r "tss_serial") df

/-- `df[column].values[index]`: the cell of the given column in the
row at `index`. -/
def dfColCell (df : List TssRow) (column : String) (index : Nat) : Except PyErr PyVal :=
  match df.get? index with
  | some row => pyGet row column
  | none => .error .indexError

/-- `tss_serial_list.index(x)`: first index of `x`
(`ValueError` when absent — unreachable in the source's uses). -/
def tssIndexOf (l : List PyVal) (x : PyVal) : Except PyErr Nat :=
  match l.findIdx? (fun v => v == x) with
  | some i => .ok i
  | none => .error (.valueError "x is not in list")

/-- Whether a TSS serial cell matches some identifier of the serials
dict (`tss_serial not in serials_dict.keys()` negated; a non-string
cell such as `None` never equals a string key). -/
def tssCellMatchesKey (sd : SerialsDict) (v : PyVal) : Bool :=
  match v with
  | .str s => sd.any (fun p => p.1 == s)
  | _ => false

/-- The loop body of the first (inventory) loop of
`prepare_report_data_tss` for one identifier: the api classification,
the coverage classification (matched or unmatched wording), and the
`tss_` cells — the matched external row's cells when the identifier
appears in the TSS serial list (first match by `.index`), otherwise one
empty-string sentinel per `tss_` column.  Returns
`(coverage message, api message, tss cells)`. -/
def tssMatchedStep (df : List TssRow) (tssSerials : List PyVal) (sr_no : String)
    (rec : SerialRec) : Except PyErr (PyVal × PyVal × List PyVal) :=
  match pyGet rec "SNIgetOwnerCoverageStatusBySerialNumbers" with
  | .error e => .error e
  | .ok owner =>
    match asDict owner with
    | .error e => .error e
    | .ok ownerD =>
      match pyGet ownerD "sr_no_owner" with
      | .error e => .error e
      | .ok flag =>
        match pyInVal "YES" flag with
        | .error e => .error e
        | .ok hasY =>
          let apiMsg := if hasY then api_no_action_msg else api_action_msg
          match pyGet rec "SNIgetCoverageSummaryBySerialNumbers" with
          | .error e => .error e
          | .ok covSrc =>
            match asDict covSrc with
            | .error e => .error e
            | .ok covD =>
              match pyGet covD "is_covered" with
              | .error e => .error e
              | .ok covFlag =>
                match pyInVal "YES" covFlag with
                | .error e => .error e
                | .ok hasC =>
                  if tssSerials.contains (PyVal.str sr_no) then
                    let covMsg := if hasC then tss_cov_both_msg else tss_cov_only_tss_msg
                    match tssIndexOf tssSerials (PyVal.str sr_no) with
                    | .error e => .error e
                    | .ok index =>
                      match mapME (fun c => dfColCell df c index) tss_columns with
                      | .error e => .error e
                      | .ok cells => .ok (PyVal.str covMsg, PyVal.str apiMsg, cells)
                  else
                    let covMsg := if hasC then tss_cov_smartnet_msg else tss_cov_missing_msg
                    .ok (PyVal.str covMsg, PyVal.str apiMsg,
                         tss_columns.map (fun _ => PyVal.str ""))

/-- The loop body of the second loop of `prepare_report_data_tss` for
one TSS serial that is not an inventory identifier: the fixed
decommissioned / no-API-data messages and the external row's `tss_`
cells (first match by `.index`). -/
def tssUnmatchedStep (df : List TssRow) (tssSerials : List PyVal) (tssSerial : PyVal) :
    Except PyErr (PyVal × PyVal × List PyVal) :=
  match tssIndexOf tssSerials tssSerial with
  | .error e => .error e
  | .ok index =>
    match mapME (fun c => dfColCell df c index) tss_columns with
    | .error e => .error e
    | .ok cells =>
      .ok (PyVal.str tss_cov_remove_msg, PyVal.str tss_api_no_data_msg, cells)

/-- Assembling the `tss_info` dict from the per-row results: each loop
iteration of the source appends exactly one element to
`coverage_action_needed`, to `api_action_needed` and to every `tss_`
column, so each column is the per-row projection in row order. -/
def tssInfoColumns (allRows : List (PyVal × PyVal × List PyVal)) :
    List (String × List PyVal) :=
  [("coverage_action_needed", allRows.map (fun r => r.1)),
   ("api_action_needed", allRows.map (fun r => r.2.1))] ++
  tss_columns.enum.map (fun e =>
    (e.2, allRows.map (fun r => r.2.2.getD e.1 (PyVal.str ""))))

/-- `prepare_report_data_tss`: normalizes the TSS dataframe, walks the
inventory serials in identifier iteration order (setting
`records["tss_info"] = {}` on every record — a mutation of the input
serials dict, returned as the second component), then appends one row
per TSS serial that matched no inventory identifier, in the TSS
inventory's row order. -/
def prepare_report_data_tss (sd : SerialsDict) (rows : List TssRow) :
    Except PyErr (List (String × List PyVal) × SerialsDict) :=
  let df := tssNormalizeRows rows
  match tssSerialListOf df with
  | .error e => .error e
  | .ok tssSerials =>
    let sd2 := sd.map (fun p => (p.1, recSet p.2 "tss_info" (PyVal.dict [])))
    match mapME (fun p => tssMatchedStep df tssSerials p.1 p.2) sd with
    | .error e => .error e
    | .ok matched =>
      match mapME (tssUnmatchedStep df tssSerials)
          (tssSerials.filter (fun v => !(tssCellMatchesKey sd v))) with
      | .error e => .error e
      | .ok unmatched => .ok (tssInfoColumns (matched ++ unmatched), sd2)

/-! ## `create_pandas_dataframe_for_report` -/

/-- Lookup of a produced column by name in a report-data dict. -/
def lookupCol (cols : List (String × List PyVal)) (k : String) : Option (List PyVal) :=
  match cols with
  | [] => none
  | c :: t => if c.1 == k then some c.2 else lookupCol t k

/-- The padding loop of `create_pandas_dataframe_for_report`:
`for _ in range(k): for column in d.values(): column.append("")`
appends `k` empty-string sentinels to every column of the dict
(`range` of a non-positive number is empty, like `Nat` subtraction). -/
def pad_with_empty (cols : List (String × List PyVal)) (k : Nat) :
    List (String × List PyVal) :=
  cols.map (fun c => (c.1, c.2 ++ List.replicate k (PyVal.str "")))

/-- The dict comprehension
`{key: report_data[key] for key in column_order}`: keeps exactly the
names of the column order, in that order, and raises `KeyError` on a
name with no produced sequence. -/
def reorder_report_data (cols : List (String × List PyVal)) (order : List String) :
    Except PyErr (List (String × List PyVal)) :=
  mapME (fun k =>
    match lookupCol cols k with
    | some v => .ok (k, v)
    | none => .error (.keyError k)) order

/-- `pd.DataFrame(report_data)`: succeeds iff all value sequences have
equal length (else pandas raises
`ValueError: All arrays must be of the same length`); it never
truncates or pads. -/
def pd_dataframe (cols : List (String × List PyVal)) :
    Except PyErr (List (String × List PyVal)) :=
  match cols with
  | [] => .ok []
  | c0 :: rest =>
    if rest.all (fun c => c.2.length == c0.2.length) then .ok (c0 :: rest)
    else .error (.valueError "All arrays must be of the same length")

/-- The column-assembly step of `create_pandas_dataframe_for_report`:
reorder the produced report data by the configured column order, then
build the dataframe. -/
def assemble_report (cols : List (String × List PyVal)) (order : List String) :
    Except PyErr (List (String × List PyVal)) :=
  match reorder_report_data cols order with
  | .error e => .error e
  | .ok ordered => pd_dataframe ordered

/-! ## Date conversion (`pd.to_datetime(..., format="%Y-%m-%d")`)

`create_pandas_dataframe_for_report` converts every column of
`DATE_COLUMN_LIST` with `pd.to_datetime(df[column], format="%Y-%m-%d")`.
pandas' default is `errors="raise"`: a non-empty string that does not
match the format raises `ValueError`; empty strings and `None` are
treated as missing and become `NaT`. -/

/-- A dataframe cell after the date conversion. -/
inductive Cell where
  | v : PyVal → Cell
  | naT : Cell
  | date : Nat → Nat → Nat → Cell
deriving Repr

def isLeapYear (y : Nat) : Bool := y % 4 == 0 && (y % 100 != 0 || y % 400 == 0)

def daysInMonth (y m : Nat) : Nat :=
  if m == 2 then (if isLeapYear y then 29 else 28)
  else if m == 4 || m == 6 || m == 9 || m == 11 then 30 else 31

/-- Split a character list at a separator (all fields, empty ones kept). -/
def splitOnChar (sep : Char) : List Char → List (List Char)
  | [] => [[]]
  | c :: t =>
    if c == sep then [] :: splitOnChar sep t
    else
      match splitOnChar sep t with
      | h :: t2 => (c :: h) :: t2
      | [] => [[c]]

def digitsToNat (cs : List Char) : Nat :=
  cs.foldl (fun a c => a * 10 + (c.toNat - 48)) 0

/-- Strict `%Y-%m-%d` parse: a four-digit year, a one-or-two-digit month
and day, dashes in between, nothing else, and a valid calendar date. -/
def parseDateYMD (s : String) : Option (Nat × Nat × Nat) :=
  match splitOnChar '-' s.data with
  | [ys, ms, ds] =>
    if ys.length == 4 && ys.all Char.isDigit
        && decide (1 ≤ ms.length) && decide (ms.length ≤ 2) && ms.all Char.isDigit
        && decide (1 ≤ ds.length) && decide (ds.length ≤ 2) && ds.all Char.isDigit then
      let y := digitsToNat ys
      let m := digitsToNat ms
      let d := digitsToNat ds
      if 1 ≤ m ∧ m ≤ 12 ∧ 1 ≤ d ∧ d ≤ daysInMonth y m then some (y, m, d) else none
    else none
  | _ => none

/-- `pd.to_datetime` on one cell with `format="%Y-%m-%d"` and the
default `errors="raise"`. -/
def to_datetime_cell (x : PyVal) : Except PyErr Cell :=
  match x with
  | .pynone => .ok .naT
  | .str s =>
    if s == "" then .ok .naT
    else
      match parseDateYMD s with
      | some (y, m, d) => .ok (.date y m d)
      | none => .error (.valueError s)
  | _ => .error .typeError

/-- `pd.to_datetime` on one column. -/
def to_datetime_column (cells : List PyVal) : Except PyErr (List Cell) :=
  mapME to_datetime_cell cells

/-- The date-conversion loop of `create_pandas_dataframe_for_report`:
every column named in `DATE_COLUMN_LIST` is converted (raising on the
first bad value), every other column is kept as-is. -/
def format_date_columns (df : List (String × List PyVal)) :
    Except PyErr (List (String × List Cell)) :=
  mapME (fun c =>
    if DATE_COLUMN_LIST.contains c.1 then
      match to_datetime_column c.2 with
      | .error e => .error e
      | .ok dc => .ok (c.1, dc)
    else .ok (c.1, c.2.map Cell.v)) df

/-! ## The risk bucketizer (`generate_cisco_maintenance_report`)

The date-typed columns receive three `conditional_format` rules, added
in the order green, orange, red.  Excel's `between` criteria are
inclusive at both ends, and when several rules match a cell the rule
added first wins, so the effective classification is the first match in
green-orange-red order.  Dates are modeled as proleptic-Gregorian day
numbers (Rata Die); the source's literal bounds `1999-01-01` and
`2999-01-01` are the day numbers below. -/

/-- Rata Die day number of 1999-01-01 (the red rule's `minimum`). -/
def rd1999 : Int := 729755

/-- Rata Die day number of 2999-01-01 (the green rule's `maximum`). -/
def rd2999 : Int := 1094998

/-- `DATE_GRACE_PERIOD` of the source. -/
def DATE_GRACE_PERIOD : Int := 90

/-- The risk bucket of one date cell. -/
inductive RiskBucket where
  | overdue | nearExpiry | healthy | notApplicable
deriving Repr, DecidableEq

/-- The classification produced by the three conditional-format rules of
`generate_cisco_maintenance_report` for a date cell `d`, with today
`today` and grace period `grace` (all in days):
green `[today+grace, 2999-01-01]`, else orange `[today, today+grace]`,
else red `[1999-01-01, today-1]`, else no highlighting. -/
def date_risk_bucket (today grace d : Int) : RiskBucket :=
  if today + grace ≤ d ∧ d ≤ rd2999 then .healthy
  else if today ≤ d ∧ d ≤ today + grace then .nearExpiry
  else if rd1999 ≤ d ∧ d ≤ today - 1 then .overdue
  else .notApplicable

/-! ## Claim C1 — the owner/coverage normalizer skips identifiers -/

/-- A serials dict of two identifiers where the first record's
`SNIgetOwnerCoverageStatusBySerialNumbers` lacks both expected fields
and the second has both. -/
def c1rec1 : SerialRec := [("SNIgetOwnerCoverageStatusBySerialNumbers", PyVal.dict [])]

def c1rec2 : SerialRec :=
  [("SNIgetOwnerCoverageStatusBySerialNumbers",
    PyVal.dict [("sr_no_owner", PyVal.str "YES"), ("coverage_end_date", PyVal.str "2030-01-01")])]

def c1sd : SerialsDict := [("SN1", c1rec1), ("SN2", c1rec2)]

/-- **C1** (code bug): the claim — every produced per-field sequence of
`prepare_report_data_owner_coverage_by_serial_number` has length equal
to the identifier count, with the empty sentinel at the position of an
identifier lacking the field — is violated by the code: its
`if not success: append("")` sits outside the per-serial loop, so for
the two-identifier input `c1sd` whose FIRST record lacks both fields the
produced sequences have length 1 (identifier SN1 is skipped, no
sentinel at its position), not 2. -/
theorem c1_owner_coverage_skips_identifier :
    prepare_report_data_owner_coverage_by_serial_number c1sd =
      .ok [("sr_no_owner", [PyVal.str "YES"]),
           ("coverage_end_date", [PyVal.str "2030-01-01"])] ∧
    c1sd.length = 2 := ⟨rfl, rfl⟩

/-! ## Claim C2 — the risk bucketizer -/

/-- A present-day Rata Die day number (2026-10-12), used as a concrete
`today`. -/
def c2today : Int := 739901

/-- **C2** (counterexample): the claim says every date `d < today` is
classified overdue, but the red conditional-format rule only covers
dates from 1999-01-01 on: the day before 1999-01-01 is strictly before
today yet gets no highlighting at all. -/
theorem c2_counterexample :
    (729754 : Int) < c2today ∧
    date_risk_bucket c2today DATE_GRACE_PERIOD 729754 = RiskBucket.notApplicable := by
  constructor
  · decide
  · decide

/-- **C2** (amended): restricted to the formatting window
`[1999-01-01, 2999-01-01]` of the source's three `between` rules, the
classification is exactly the claimed one: `d < today` is overdue,
`today ≤ d < today + grace` is near-expiry, and `today + grace ≤ d` is
healthy (dates outside the window are left unhighlighted). -/
theorem c2_risk_bucket_amended (today grace d : Int)
    (hlo : rd1999 ≤ d) (hhi : d ≤ rd2999) (hg : 0 ≤ grace) :
    (d < today → date_risk_bucket today grace d = RiskBucket.overdue) ∧
    (today ≤ d → d < today + grace → date_risk_bucket today grace d = RiskBucket.nearExpiry) ∧
    (today + grace ≤ d → date_risk_bucket today grace d = RiskBucket.healthy) := by
  simp only [rd1999, rd2999] at hlo hhi
  unfold date_risk_bucket
  simp only [rd1999, rd2999]
  refine ⟨?_, ?_, ?_⟩ <;> intros <;> split_ifs <;> first | rfl | omega

/-- Witness for `c2_risk_bucket_amended` at the claim's own example
scenario: grace period 90, a current `today`; the day before is
overdue, 45 days out is near-expiry, 200 days out is healthy. -/
theorem c2_risk_bucket_witness :
    date_risk_bucket c2today 90 (c2today - 1) = RiskBucket.overdue ∧
    date_risk_bucket c2today 90 (c2today + 45) = RiskBucket.nearExpiry ∧
    date_risk_bucket c2today 90 (c2today + 200) = RiskBucket.healthy :=
  ⟨(c2_risk_bucket_amended c2today 90 (c2today - 1) (by decide) (by decide) (by decide)).1
      (by decide),
   (c2_risk_bucket_amended c2today 90 (c2today + 45) (by decide) (by decide) (by decide)).2.1
      (by decide) (by decide),
   (c2_risk_bucket_amended c2today 90 (c2today + 200) (by decide) (by decide) (by decide)).2.2
      (by decide)⟩

/-! ## Claim C4 — the action classifier's YES rule -/

/-- **C4** (counterexample): the claim says the no-action class is
returned exactly when the flag EQUALS the literal `"YES"`, but the code
tests Python substring containment: the flag `"YESNO"` is not equal to
`"YES"` yet is classified as no-action-needed. -/
theorem c4_counterexample :
    api_action_needed_msg "YESNO" = api_no_action_msg ∧ ("YESNO" : String) ≠ "YES" :=
  ⟨rfl, by decide⟩

/-- **C4** (amended): for every flag value, every classifier of the
program — ownership and coverage, in both the plain run and the
inventory-matched run — returns its no-action class exactly when the
flag CONTAINS `"YES"` as a substring (`"YES" in flag`); the boolean rule
is identical everywhere, only the message wording differs.  The last
conjunct checks that the record-level classifier of
`prepare_report_data_act_needed` computes exactly these two messages. -/
theorem c4_yes_substring_rule (s : String) :
    (api_action_needed_msg s = api_no_action_msg ↔ pyInStr "YES" s = true) ∧
    (coverage_action_needed_msg s = cov_no_action_msg ↔ pyInStr "YES" s = true) ∧
    (tss_api_action_needed_msg s = api_no_action_msg ↔ pyInStr "YES" s = true) ∧
    (tss_coverage_matched_msg s = tss_cov_both_msg ↔ pyInStr "YES" s = true) ∧
    (tss_coverage_unmatched_msg s = tss_cov_smartnet_msg ↔ pyInStr "YES" s = true) ∧
    actNeededStep
        [("SNIgetOwnerCoverageStatusBySerialNumbers",
          PyVal.dict [("sr_no_owner", PyVal.str s)]),
         ("SNIgetCoverageSummaryBySerialNumbers",
          PyVal.dict [("is_covered", PyVal.str s)])] =
      .ok (PyVal.str (coverage_action_needed_msg s), PyVal.str (api_action_needed_msg s)) := by
  unfold api_action_needed_msg coverage_action_needed_msg tss_api_action_needed_msg
    tss_coverage_matched_msg tss_coverage_unmatched_msg
  refine ⟨?_, ?_, ?_, ?_, ?_, ?_⟩
  · cases h : pyInStr "YES" s
    · simp [h]
      decide
    · simp [h]
  · cases h : pyInStr "YES" s
    · simp [h]
      decide
    · simp [h]
  · cases h : pyInStr "YES" s
    · simp [h]
      decide
    · simp [h]
  · cases h : pyInStr "YES" s
    · simp [h]
      decide
    · simp [h]
  · cases h : pyInStr "YES" s
    · simp [h]
      decide
    · simp [h]
  · rfl

/-! ## Claims C5 and C6 — the column assembler -/

/-- A successful reorder keeps exactly the ordered names, in order. -/
theorem reorder_ok_fst {cols : List (String × List PyVal)} {order : List String}
    {out : List (String × List PyVal)}
    (h : reorder_report_data cols order = .ok out) : out.map Prod.fst = order := by
  rw [reorder_report_data] at h
  induction order generalizing out with
  | nil => cases h; rfl
  | cons k t ih =>
    rw [mapME] at h
    cases hk : lookupCol cols k with
    | none => rw [hk] at h; cases h
    | some v =>
      rw [hk] at h
      cases ht : mapME (fun k => match lookupCol cols k with
          | some v => Except.ok (k, v)
          | none => Except.error (PyErr.keyError k)) t with
      | error e => rw [ht] at h; cases h
      | ok rt =>
        rw [ht] at h
        cases h
        simp [ih ht]

/-- A successful reorder returns, in order, exactly the sequences the
produced mapping holds for the ordered names. -/
theorem reorder_ok_snd {cols : List (String × List PyVal)} {order : List String}
    {out : List (String × List PyVal)}
    (h : reorder_report_data cols order = .ok out) :
    out.map Prod.snd = order.filterMap (lookupCol cols) := by
  rw [reorder_report_data] at h
  induction order generalizing out with
  | nil => cases h; rfl
  | cons k t ih =>
    rw [mapME] at h
    cases hk : lookupCol cols k with
    | none => rw [hk] at h; cases h
    | some v =>
      rw [hk] at h
      cases ht : mapME (fun k => match lookupCol cols k with
          | some v => Except.ok (k, v)
          | none => Except.error (PyErr.keyError k)) t with
      | error e => rw [ht] at h; cases h
      | ok rt =>
        rw [ht] at h
        cases h
        simp [List.filterMap_cons, hk, ih ht]

/-- The reorder step succeeds iff every ordered name has a produced
sequence. -/
theorem reorder_ok_iff (cols : List (String × List PyVal)) (order : List String) :
    (reorder_report_data cols order).isOk = true ↔
      ∀ k ∈ order, (lookupCol cols k).isSome = true := by
  constructor
  · intro h k hk
    cases hlk : lookupCol cols k with
    | some v => rfl
    | none =>
      rw [reorder_report_data] at h
      have : ((fun k => match lookupCol cols k with
          | some v => Except.ok (k, v)
          | none => Except.error (PyErr.keyError k)) k : Except PyErr _).isOk = false := by
        simp [hlk, Except.isOk, Except.toBool]
      rw [mapME_not_isOk hk this] at h
      cases h
  · intro h
    rw [reorder_report_data]
    apply mapME_isOk_of_forall
    intro k hk
    cases hlk : lookupCol cols k with
    | some v => simp [hlk, Except.isOk, Except.toBool]
    | none => have := h k hk; rw [hlk] at this; cases this

/-- A successful reorder only returns sequences the produced mapping
actually holds for the respective name. -/
theorem reorder_ok_mem {cols : List (String × List PyVal)} {order : List String}
    {out : List (String × List PyVal)}
    (h : reorder_report_data cols order = .ok out) :
    ∀ c ∈ out, lookupCol cols c.1 = some c.2 := by
  rw [reorder_report_data] at h
  refine mapME_ok_forall h _ (fun a b hab => ?_)
  cases hab' : lookupCol cols a with
  | none => simp [hab'] at hab
  | some v => simp only [hab'] at hab; cases hab; exact hab'

/-- `pd.DataFrame` succeeds iff all column sequences have equal length. -/
theorem pd_dataframe_ok_iff (cols : List (String × List PyVal)) :
    (pd_dataframe cols).isOk = true ↔
      ∀ c ∈ cols, ∀ c' ∈ cols, c.2.length = c'.2.length := by
  cases cols with
  | nil => simp [pd_dataframe, Except.isOk, Except.toBool]
  | cons c0 rest =>
    rw [pd_dataframe]
    constructor
    · intro h
      have hall : rest.all (fun c => c.2.length == c0.2.length) = true := by
        by_contra hc
        rw [if_neg (by simpa using hc)] at h
        cases h
      have heach : ∀ c ∈ c0 :: rest, c.2.length = c0.2.length := by
        intro c hc
        rcases List.mem_cons.mp hc with rfl | hc
        · rfl
        · exact eq_of_beq (List.all_eq_true.mp hall c hc)
      intro c hc c' hc'
      rw [heach c hc, heach c' hc']
    · intro h
      rw [if_pos]
      · rfl
      · apply List.all_eq_true.mpr
        intro c hc
        exact beq_of_eq
          (h c (List.mem_cons_of_mem c0 hc) c0 (List.mem_cons_self c0 rest))

/-- A successful `pd.DataFrame` returns its input unchanged: no
truncation, no padding. -/
theorem pd_dataframe_ok_eq {cols out : List (String × List PyVal)}
    (h : pd_dataframe cols = .ok out) : out = cols := by
  cases cols with
  | nil => cases h; rfl
  | cons c0 rest =>
    rw [pd_dataframe] at h
    by_cases hall : rest.all (fun c => c.2.length == c0.2.length) = true
    · rw [if_pos hall] at h; cases h; rfl
    · rw [if_neg hall] at h; cases h

/-- **C5** (amended): the column assembler fails exactly when some
configured column-order name has no produced sequence or the sequences
SELECTED by the column order have unequal lengths — unequal lengths
among columns the order drops do not fail — and on success every output
column keeps its full sequence, all of one common length. -/
theorem c5_assembler_amended (cols : List (String × List PyVal)) (order : List String) :
    ((assemble_report cols order).isOk = true ↔
      ((∀ k ∈ order, (lookupCol cols k).isSome = true) ∧
        ∀ l₁ ∈ order.filterMap (lookupCol cols), ∀ l₂ ∈ order.filterMap (lookupCol cols),
          l₁.length = l₂.length)) ∧
    ∀ out, assemble_report cols order = .ok out →
      out.map Prod.fst = order ∧
      ∀ c ∈ out, lookupCol cols c.1 = some c.2 ∧
        ∀ c' ∈ out, c.2.length = c'.2.length := by
  constructor
  · rw [assemble_report]
    cases hr : reorder_report_data cols order with
    | error e =>
      have hno : ¬ ∀ k ∈ order, (lookupCol cols k).isSome = true := by
        intro hall
        have := (reorder_ok_iff cols order).mpr hall
        rw [hr] at this
        cases this
      simp only [Except.isOk, Except.toBool]
      constructor
      · intro h; cases h
      · intro h; exact absurd h.1 hno
    | ok ordered =>
      have hsnd := reorder_ok_snd hr
      have hall : ∀ k ∈ order, (lookupCol cols k).isSome = true :=
        (reorder_ok_iff cols order).mp (by rw [hr]; rfl)
      rw [pd_dataframe_ok_iff]
      constructor
      · intro h
        refine ⟨hall, ?_⟩
        intro l₁ h₁ l₂ h₂
        rw [← hsnd] at h₁ h₂
        rcases List.mem_map.mp h₁ with ⟨c₁, hc₁, rfl⟩
        rcases List.mem_map.mp h₂ with ⟨c₂, hc₂, rfl⟩
        exact h c₁ hc₁ c₂ hc₂
      · intro h
        intro c hc c' hc'
        have h₁ : c.2 ∈ order.filterMap (lookupCol cols) := by
          rw [← hsnd]; exact List.mem_map_of_mem Prod.snd hc
        have h₂ : c'.2 ∈ order.filterMap (lookupCol cols) := by
          rw [← hsnd]; exact List.mem_map_of_mem Prod.snd hc'
        exact h.2 c.2 h₁ c'.2 h₂
  · intro out hout
    rw [assemble_report] at hout
    cases hr : reorder_report_data cols order with
    | error e => rw [hr] at hout; cases hout
    | ok ordered =>
      rw [hr] at hout
      have hpd : pd_dataframe ordered = Except.ok out := hout
      have heq := pd_dataframe_ok_eq hpd
      subst heq
      refine ⟨reorder_ok_fst hr, ?_⟩
      intro c hc
      refine ⟨reorder_ok_mem hr c hc, ?_⟩
      intro c' hc'
      exact (pd_dataframe_ok_iff out).mp (by rw [hpd]; rfl) c hc c' hc'

/-- A produced report-data mapping in which every configured column has a
length-1 sequence but the produced (and dropped) column
`EndOfSecurityVulSupportDate` has length 2. -/
def c5cols : List (String × List PyVal) :=
  EXCEL_COLUMN_ORDER.map (fun k => (k, [PyVal.str ""])) ++
  [("EndOfSecurityVulSupportDate", [PyVal.str "", PyVal.str ""])]

/-- **C5** (counterexample): the claim says the assembler fails whenever
the mapping it receives contains sequences of unequal lengths, but a
mapping whose only over-long sequence belongs to a column that the
column order drops (`EndOfSecurityVulSupportDate`) is assembled without
any error. -/
theorem c5_counterexample :
    (assemble_report c5cols EXCEL_COLUMN_ORDER).isOk = true ∧
    lookupCol c5cols "host" = some [PyVal.str ""] ∧
    lookupCol c5cols "EndOfSecurityVulSupportDate" =
      some [PyVal.str "", PyVal.str ""] :=
  ⟨rfl, rfl, rfl⟩

def c5wcols : List (String × List PyVal) :=
  [("a", [PyVal.str "x"]), ("b", [PyVal.str "y"])]

/-- Witness for `c5_assembler_amended`: with both ordered names present
and equal selected lengths, assembly succeeds. -/
theorem c5_assembler_witness :
    (assemble_report c5wcols ["a", "b"]).isOk = true :=
  (c5_assembler_amended c5wcols ["a", "b"]).1.mpr
    ⟨by decide, fun l₁ h₁ l₂ h₂ => by fin_cases h₁ <;> fin_cases h₂ <;> rfl⟩

/-- **C6**: a successful assembly outputs exactly the configured
column-order names in that order (any produced column not named there is
dropped), and a configured name with no produced sequence makes the
assembly fail instead of yielding an empty column. -/
theorem c6_column_order (cols : List (String × List PyVal)) (order : List String) :
    (∀ out, assemble_report cols order = .ok out →
      out.map Prod.fst = order ∧ ∀ k, k ∉ order → k ∉ out.map Prod.fst) ∧
    ∀ k ∈ order, lookupCol cols k = none → (assemble_report cols order).isOk = false := by
  constructor
  · intro out hout
    rw [assemble_report] at hout
    cases hr : reorder_report_data cols order with
    | error e => rw [hr] at hout; cases hout
    | ok ordered =>
      rw [hr] at hout
      have hpd : pd_dataframe ordered = Except.ok out := hout
      have heq := pd_dataframe_ok_eq hpd
      subst heq
      have hfst := reorder_ok_fst hr
      exact ⟨hfst, fun k hk hmem => hk (hfst ▸ hmem)⟩
  · intro k hk hnone
    rw [assemble_report]
    cases hr : reorder_report_data cols order with
    | error e => rfl
    | ok ordered =>
      exfalso
      have := (reorder_ok_iff cols order).mp (by rw [hr]; rfl) k hk
      rw [hnone] at this
      cases this

def c6cols : List (String × List PyVal) :=
  [("a", [PyVal.str "x"]), ("junk", [PyVal.str "y"])]

/-- Witness for `c6_column_order`: assembling `c6cols` with order
`["a"]` keeps exactly column `a` and drops `junk`; ordering with the
absent name `b` fails. -/
theorem c6_column_order_witness :
    ([("a", [PyVal.str "x"])].map Prod.fst = ["a"] ∧
      "junk" ∉ ([("a", [PyVal.str "x"])].map Prod.fst)) ∧
    (assemble_report c6cols ["a", "b"]).isOk = false :=
  ⟨⟨((c6_column_order c6cols ["a"]).1 [("a", [PyVal.str "x"])] rfl).1,
    ((c6_column_order c6cols ["a"]).1 [("a", [PyVal.str "x"])] rfl).2 "junk" (by decide)⟩,
   (c6_column_order c6cols ["a", "b"]).2 "b" (by decide) rfl⟩

/-! ## Claim C7 — unparseable dates -/

/-- **C7** (counterexample): the claim says an unparseable date value is
classified not-applicable and never causes an exception, but
`pd.to_datetime` runs with its default `errors="raise"`: a non-empty
value that does not match `%Y-%m-%d` raises `ValueError` and aborts the
report preparation. -/
theorem c7_counterexample :
    to_datetime_column [PyVal.str "banana"] = .error (.valueError "banana") := rfl

/-- **C7** (amended): a date column whose every cell is `None`, the
empty sentinel, or a string parseable as `%Y-%m-%d` converts without an
exception, keeps its length, and maps each empty/`None` cell to `NaT`
(which receives no conditional-format highlighting); only a non-empty
unparseable value raises. -/
theorem c7_date_conversion_amended (cells : List PyVal)
    (h : ∀ x ∈ cells, x = PyVal.pynone ∨ x = PyVal.str "" ∨
        ∃ s y m d, x = PyVal.str s ∧ parseDateYMD s = some (y, m, d)) :
    ∃ out, to_datetime_column cells = .ok out ∧ out.length = cells.length ∧
      ∀ i, (cells.get? i = some (PyVal.str "") ∨ cells.get? i = some PyVal.pynone) →
        out.get? i = some Cell.naT := by
  induction cells with
  | nil =>
    refine ⟨[], rfl, rfl, fun i hi => ?_⟩
    rcases hi with h' | h' <;> cases h'
  | cons a t ih =>
    obtain ⟨out', hout', hlen', hnat'⟩ := ih (fun x hx => h x (List.mem_cons_of_mem a hx))
    have ha := h a (List.mem_cons_self a t)
    have hcell : ∃ c, to_datetime_cell a = .ok c ∧
        ((a = PyVal.str "" ∨ a = PyVal.pynone) → c = Cell.naT) := by
      rcases ha with rfl | rfl | ⟨s, y, m, d, rfl, hparse⟩
      · exact ⟨Cell.naT, rfl, fun _ => rfl⟩
      · exact ⟨Cell.naT, rfl, fun _ => rfl⟩
      · have hs : (s == "") = false := by
          rw [beq_eq_false_iff_ne]
          intro hss
          subst hss
          rw [show parseDateYMD "" = none from rfl] at hparse
          cases hparse
        refine ⟨Cell.date y m d, ?_, ?_⟩
        · rw [to_datetime_cell, if_neg (by rw [hs]; intro hc; cases hc), hparse]
        · intro hc
          rcases hc with hc | hc
          · cases hc
            rw [show (("" : String) == "") = true from rfl] at hs
            cases hs
          · cases hc
    obtain ⟨c, hc, hcnat⟩ := hcell
    refine ⟨c :: out', ?_, ?_, ?_⟩
    · rw [to_datetime_column, mapME, hc]
      rw [to_datetime_column] at hout'
      rw [hout']
    · simp [hlen']
    · intro i hi
      cases i with
      | zero =>
        have : a = PyVal.str "" ∨ a = PyVal.pynone := by
          rcases hi with h' | h'
          · left; cases h'; rfl
          · right; cases h'; rfl
        simp [hcnat this]
      | succ j => exact hnat' j hi

def c7cells : List PyVal := [PyVal.str "", PyVal.pynone, PyVal.str "2030-05-17"]

/-- Witness for `c7_date_conversion_amended` on a column holding the
empty sentinel, a `None`, and a valid date. -/
theorem c7_date_conversion_witness :
    (to_datetime_column c7cells).isOk = true := by
  obtain ⟨out, hout, -, -⟩ := c7_date_conversion_amended c7cells (by
    intro x hx
    fin_cases hx
    · right; left; rfl
    · left; rfl
    · right; right; exact ⟨"2030-05-17", 2030, 5, 17, rfl, rfl⟩)
  rw [hout]
  rfl

/-! ## Claim C8 — what makes the normalizers raise -/

/-- The structure `prepare_report_data_coverage_summary_by_serial_numbers`
actually requires of one record to run without an exception: the
top-level source key must map to a dict that contains a non-empty
`orderable_pid_list` whose first entry is a dict. -/
def covWFb (rec : SerialRec) : Bool :=
  match lookupFirst rec "SNIgetCoverageSummaryBySerialNumbers" with
  | some (.dict top) =>
    match lookupFirst top "orderable_pid_list" with
    | some (.list (PyVal.dict _ :: _)) => true
    | _ => false
  | _ => false

/-- The structure `prepare_report_data_eox_by_serial_numbers` actually
requires of one record: the top-level source key must map to a dict
containing an `EOXMigrationDetails` dict, and `EOXError`, when present,
must be a dict. -/
def eoxWFb (rec : SerialRec) : Bool :=
  match lookupFirst rec "EOXgetBySerialNumbers" with
  | some (.dict top) =>
    match lookupFirst top "EOXMigrationDetails" with
    | some (.dict _) =>
      match lookupFirst top "EOXError" with
      | some (.dict _) => true
      | some _ => false
      | none => true
    | _ => false
  | _ => false

/-- A coverage-summary scan of a structurally well-formed record never
raises, whatever leaf fields are present or absent. -/
theorem covScanSerial_isOk {rec : SerialRec} (h : covWFb rec = true) (header : String) :
    (covScanSerial header rec).isOk = true := by
  rw [covWFb] at h
  split at h
  · rename_i top h1
    split at h
    · rename_i d rest h2
      rw [covScanSerial]
      simp only [pyGet, h1, asDict, h2, asList, List.head?]
      rfl
    · cases h
  · cases h

/-- An end-of-life scan of a structurally well-formed record never
raises, whatever leaf fields are present or absent. -/
theorem eoxScanSerial_isOk {rec : SerialRec} (h : eoxWFb rec = true) (header : String) :
    (eoxScanSerial header rec).isOk = true := by
  rw [eoxWFb] at h
  split at h
  · rename_i top h1
    split at h
    · rename_i mig h2
      rw [eoxScanSerial]
      simp only [pyGet, h1, asDict, h2]
      split at h
      · rename_i errD h3
        simp only [h3, asDict]
        rfl
      · rename_i errVal h3 hnd
        cases h
      · rename_i h3
        simp only [h3]
        rfl
    · cases h
  · cases h

/-- **C8** (amended): the two nested-source normalizers never raise for
missing or partial LEAF data, but they require more than the presence of
the top-level source key: the coverage summary also needs a non-empty
`orderable_pid_list` dict entry and the end-of-life data an
`EOXMigrationDetails` dict (`EOXError`, when present, a dict); given
that structure they always succeed. -/
theorem c8_normalizers_amended (sd : SerialsDict)
    (h1 : ∀ p ∈ sd, covWFb p.2 = true) (h2 : ∀ p ∈ sd, eoxWFb p.2 = true) :
    (prepare_report_data_coverage_summary_by_serial_numbers sd).isOk = true ∧
    (prepare_report_data_eox_by_serial_numbers sd).isOk = true := by
  constructor
  · rw [prepare_report_data_coverage_summary_by_serial_numbers]
    apply mapME_isOk_of_forall
    intro hd _
    have hcol : (covColumn sd hd).isOk = true := by
      rw [covColumn]
      have := mapME_isOk_of_forall (l := sd) (f := fun p => covScanSerial hd p.2)
        (fun p hp => covScanSerial_isOk (h1 p hp) hd)
      cases hm : mapME (fun p => covScanSerial hd p.2) sd with
      | error e => rw [hm] at this; cases this
      | ok parts => rfl
    cases hc : covColumn sd hd with
    | error e => rw [hc] at hcol; cases hcol
    | ok c => simp [hc, Except.isOk, Except.toBool]
  · rw [prepare_report_data_eox_by_serial_numbers]
    apply mapME_isOk_of_forall
    intro hd _
    have hcol : (eoxColumn sd hd).isOk = true := by
      rw [eoxColumn]
      have := mapME_isOk_of_forall (l := sd) (f := fun p => eoxScanSerial hd p.2)
        (fun p hp => eoxScanSerial_isOk (h2 p hp) hd)
      cases hm : mapME (fun p => eoxScanSerial hd p.2) sd with
      | error e => rw [hm] at this; cases this
      | ok parts => rfl
    cases hc : eoxColumn sd hd with
    | error e => rw [hc] at hcol; cases hcol
    | ok c => simp [hc, Except.isOk, Except.toBool]

/-- **C8** (counterexample): a record whose required top-level source
key IS present but whose `orderable_pid_list` is empty still makes the
coverage-summary normalizer raise (`IndexError` from the unconditional
`[0]`), contradicting the claim that only a missing top-level source key
raises. -/
theorem c8_counterexample :
    prepare_report_data_coverage_summary_by_serial_numbers
      [("SN1", [("SNIgetCoverageSummaryBySerialNumbers",
                 PyVal.dict [("orderable_pid_list", PyVal.list [])])])] =
      .error PyErr.indexError := rfl

def c8rec : SerialRec :=
  [("SNIgetCoverageSummaryBySerialNumbers",
    PyVal.dict [("is_covered", PyVal.str "YES"),
                ("orderable_pid_list", PyVal.list [PyVal.dict []])]),
   ("EOXgetBySerialNumbers",
    PyVal.dict [("EOXMigrationDetails", PyVal.dict [])])]

/-- Witness for `c8_normalizers_amended`: a record with the required
structure but without a single expected leaf field normalizes without an
exception. -/
theorem c8_normalizers_witness :
    (prepare_report_data_coverage_summary_by_serial_numbers [("SN1", c8rec)]).isOk = true ∧
    (prepare_report_data_eox_by_serial_numbers [("SN1", c8rec)]).isOk = true :=
  c8_normalizers_amended [("SN1", c8rec)]
    (by intro p hp; rw [List.mem_singleton.mp hp]; rfl)
    (by intro p hp; rw [List.mem_singleton.mp hp]; rfl)

/-! ## Claim C10 — the EOX top-level value-unwrap rule -/

/-- A top-level EOX item whose key is not the scanned header contributes
nothing. -/
theorem eoxTopMatch_ne {header : String} {kv : String × PyVal} (h : ¬ kv.1 = header) :
    eoxTopMatch header kv = none := by
  rw [eoxTopMatch, if_neg]
  intro hc
  exact h (eq_of_beq hc).symm

/-- A top-level EOX item with the scanned header contributes exactly the
`value` entry of a dict value, and nothing for any other value shape. -/
theorem eoxTopMatch_self (header : String) (v : PyVal) :
    eoxTopMatch header (header, v) =
      (match v with | PyVal.dict d => lookupFirst d "value" | _ => none) := by
  rw [eoxTopMatch, if_pos]
  exact beq_self_eq_true header

/-- Reduction of the per-serial EOX scan when the record is structurally
well-formed, the migration block holds no binding for the header and
there is no error block: the cell comes from the top-level scan alone. -/
theorem eoxScanSerial_no_mig_no_err {rec top mig : PyDict} {header : String}
    (h1 : lookupFirst rec "EOXgetBySerialNumbers" = some (PyVal.dict top))
    (h2 : lookupFirst top "EOXMigrationDetails" = some (PyVal.dict mig))
    (h3 : lookupFirst top "EOXError" = none)
    (hmig : ∀ kv ∈ mig, ¬ kv.1 = header) :
    eoxScanSerial header rec =
      .ok (if (top.filterMap (eoxTopMatch header)).isEmpty then [PyVal.str ""]
           else top.filterMap (eoxTopMatch header)) := by
  have hm2 : mig.filterMap (fun kv =>
      if header == kv.1 && eox_headers.contains kv.1 then some kv.2 else none) = [] := by
    apply List.filterMap_eq_nil_iff.mpr
    intro kv hkv
    have hne : (header == kv.1) = false :=
      beq_eq_false_iff_ne.mpr (fun hh => hmig kv hkv hh.symm)
    simp [hne]
  rw [eoxScanSerial]
  simp only [pyGet, h1, asDict, h2, h3, hm2, List.append_nil]

/-- **C10**: in the end-of-life normalizer a top-level EOX field
contributes a value only when that value is a dict containing the key
`value` (which is unwrapped); a record whose header field holds any
other shape — a plain value, or a dict without `value` — yields the
empty-string sentinel for that serial when the field name appears in
neither the migration-details nor the error block. -/
theorem c10_eox_value_unwrap :
    (∀ (rec : SerialRec) (top mig pre post : PyDict) (header : String) (v : PyVal),
      lookupFirst rec "EOXgetBySerialNumbers" = some (PyVal.dict top) →
      lookupFirst top "EOXMigrationDetails" = some (PyVal.dict mig) →
      lookupFirst top "EOXError" = none →
      (∀ kv ∈ mig, ¬ kv.1 = header) →
      top = pre ++ (header, v) :: post →
      (∀ kv ∈ pre, ¬ kv.1 = header) →
      (∀ kv ∈ post, ¬ kv.1 = header) →
      (∀ d : PyDict, v = PyVal.dict d → lookupFirst d "value" = none) →
      eoxScanSerial header rec = .ok [PyVal.str ""]) ∧
    (∀ (rec : SerialRec) (top mig pre post : PyDict) (header : String)
        (d : PyDict) (x : PyVal),
      lookupFirst rec "EOXgetBySerialNumbers" = some (PyVal.dict top) →
      lookupFirst top "EOXMigrationDetails" = some (PyVal.dict mig) →
      lookupFirst top "EOXError" = none →
      (∀ kv ∈ mig, ¬ kv.1 = header) →
      top = pre ++ (header, PyVal.dict d) :: post →
      (∀ kv ∈ pre, ¬ kv.1 = header) →
      (∀ kv ∈ post, ¬ kv.1 = header) →
      lookupFirst d "value" = some x →
      eoxScanSerial header rec = .ok [x]) := by
  constructor
  · intro rec top mig pre post header v h1 h2 h3 hmig htop hpre hpost hval
    rw [eoxScanSerial_no_mig_no_err h1 h2 h3 hmig]
    have hm1 : top.filterMap (eoxTopMatch header) = [] := by
      subst htop
      rw [List.filterMap_append]
      have hp : pre.filterMap (eoxTopMatch header) = [] :=
        List.filterMap_eq_nil_iff.mpr (fun kv hkv => eoxTopMatch_ne (hpre kv hkv))
      have hq : post.filterMap (eoxTopMatch header) = [] :=
        List.filterMap_eq_nil_iff.mpr (fun kv hkv => eoxTopMatch_ne (hpost kv hkv))
      have hmid : eoxTopMatch header (header, v) = none := by
        rw [eoxTopMatch_self]
        cases v with
        | dict d => exact hval d rfl
        | str s => rfl
        | pynone => rfl
        | list l => rfl
      rw [hp, List.filterMap_cons, hmid, hq]
      rfl
    rw [hm1]
    rfl
  · intro rec top mig pre post header d x h1 h2 h3 hmig htop hpre hpost hval
    rw [eoxScanSerial_no_mig_no_err h1 h2 h3 hmig]
    have hm1 : top.filterMap (eoxTopMatch header) = [x] := by
      subst htop
      rw [List.filterMap_append]
      have hp : pre.filterMap (eoxTopMatch header) = [] :=
        List.filterMap_eq_nil_iff.mpr (fun kv hkv => eoxTopMatch_ne (hpre kv hkv))
      have hq : post.filterMap (eoxTopMatch header) = [] :=
        List.filterMap_eq_nil_iff.mpr (fun kv hkv => eoxTopMatch_ne (hpost kv hkv))
      have hmid : eoxTopMatch header (header, PyVal.dict d) = some x := by
        rw [eoxTopMatch_self]
        exact hval
      rw [hp, List.filterMap_cons, hmid, hq]
      rfl
    rw [hm1]
    rfl

/-- An EOX record whose `EndOfSaleDate` is a PLAIN string (not the
API's `{"value": ...}` wrapping). -/
def c10rec_plain : SerialRec :=
  [("EOXgetBySerialNumbers", PyVal.dict
      [("EndOfSaleDate", PyVal.str "2020-01-31"),
       ("EOXMigrationDetails", PyVal.dict [])])]

/-- An EOX record with the dict-wrapped `EndOfSaleDate`. -/
def c10rec_wrap : SerialRec :=
  [("EOXgetBySerialNumbers", PyVal.dict
      [("EndOfSaleDate", PyVal.dict [("value", PyVal.str "2020-01-31")]),
       ("EOXMigrationDetails", PyVal.dict [])])]

/-- Witness for `c10_eox_value_unwrap`: the plain string date is ignored
(empty sentinel), the dict-wrapped date is unwrapped. -/
theorem c10_eox_value_unwrap_witness :
    eoxScanSerial "EndOfSaleDate" c10rec_plain = .ok [PyVal.str ""] ∧
    eoxScanSerial "EndOfSaleDate" c10rec_wrap = .ok [PyVal.str "2020-01-31"] :=
  ⟨c10_eox_value_unwrap.1 c10rec_plain
      [("EndOfSaleDate", PyVal.str "2020-01-31"), ("EOXMigrationDetails", PyVal.dict [])]
      [] [] [("EOXMigrationDetails", PyVal.dict [])] "EndOfSaleDate"
      (PyVal.str "2020-01-31") rfl rfl rfl (fun kv hkv => by cases hkv)
      rfl (fun kv hkv => by cases hkv)
      (fun kv hkv => by rw [List.mem_singleton.mp hkv]; decide)
      (fun d hd => by cases hd),
   c10_eox_value_unwrap.2 c10rec_wrap
      [("EndOfSaleDate", PyVal.dict [("value", PyVal.str "2020-01-31")]),
       ("EOXMigrationDetails", PyVal.dict [])]
      [] [] [("EOXMigrationDetails", PyVal.dict [])] "EndOfSaleDate"
      [("value", PyVal.str "2020-01-31")] (PyVal.str "2020-01-31")
      rfl rfl rfl (fun kv hkv => by cases hkv)
      rfl (fun kv hkv => by cases hkv)
      (fun kv hkv => by rw [List.mem_singleton.mp hkv]; decide)
      rfl⟩

/-! ## Claim C9 — the serials dict is mutated by the TSS stage -/

/-- Overwriting an existing binding leaves every other key's lookup
unchanged. -/
theorem lookupFirst_map_set {d : PyDict} {k k' : String} {v : PyVal} (h : ¬ k' = k) :
    lookupFirst (d.map (fun kv => if kv.1 == k then (k, v) else kv)) k' =
      lookupFirst d k' := by
  have h1 : (k == k') = false := beq_eq_false_iff_ne.mpr (fun hh => h hh.symm)
  induction d with
  | nil => rfl
  | cons kv t ih =>
    rw [List.map_cons]
    cases hk : (kv.1 == k) with
    | true =>
      have h2 : (kv.1 == k') = false := by rw [eq_of_beq hk]; exact h1
      simp only [beq_iff_eq] at ih
      simp [lookupFirst, h1, h2, ih]
    | false =>
      simp only [beq_iff_eq] at ih
      simp [lookupFirst, ih]

/-- Appending a new binding leaves every other key's lookup unchanged. -/
theorem lookupFirst_append_set {d : PyDict} {k k' : String} {v : PyVal} (h : ¬ k' = k) :
    lookupFirst (d ++ [(k, v)]) k' = lookupFirst d k' := by
  have h1 : (k == k') = false := beq_eq_false_iff_ne.mpr (fun hh => h hh.symm)
  induction d with
  | nil => simp [lookupFirst, h1]
  | cons kv t ih => simp [lookupFirst, ih]

/-- Python dict assignment `d[k] = v` changes no other key. -/
theorem recSet_lookup_ne (d : PyDict) (k : String) (v : PyVal) (k' : String)
    (h : ¬ k' = k) :
    lookupFirst (recSet d k v) k' = lookupFirst d k' := by
  rw [recSet]
  by_cases hany : d.any (fun kv => kv.1 == k) = true
  · rw [if_pos hany]; exact lookupFirst_map_set h
  · rw [if_neg hany]; exact lookupFirst_append_set h

/-- **C9** (amended): the pure normalizers and the action classifier
only read the serials dict, but `prepare_report_data_tss` does NOT leave
it unchanged: on success the returned dict is exactly the input with
`records["tss_info"] = {}` applied to every record — the identifier
sequence is preserved and every key other than `tss_info` keeps its
value, but each record gains (or has overwritten) the `tss_info`
binding. -/
theorem c9_tss_mutation_amended (sd : SerialsDict) (rows : List TssRow)
    (info : List (String × List PyVal)) (sd2 : SerialsDict)
    (h : prepare_report_data_tss sd rows = .ok (info, sd2)) :
    sd2 = sd.map (fun p => (p.1, recSet p.2 "tss_info" (PyVal.dict []))) ∧
    (∀ p ∈ sd, ∀ k, ¬ k = "tss_info" →
      lookupFirst (recSet p.2 "tss_info" (PyVal.dict [])) k = lookupFirst p.2 k) ∧
    sd2.map Prod.fst = sd.map Prod.fst := by
  have hmain : sd2 = sd.map (fun p => (p.1, recSet p.2 "tss_info" (PyVal.dict []))) := by
    rw [prepare_report_data_tss] at h
    split at h
    · cases h
    · split at h
      · cases h
      · split at h
        · cases h
        · rw [Except.ok.injEq, Prod.mk.injEq] at h
          exact h.2.symm
  refine ⟨hmain, ?_, ?_⟩
  · intro p _ k hk
    exact recSet_lookup_ne p.2 "tss_info" (PyVal.dict []) k hk
  · rw [hmain]
    simp

def c9rec : SerialRec :=
  [("host", PyVal.str "sw1"),
   ("SNIgetOwnerCoverageStatusBySerialNumbers",
    PyVal.dict [("sr_no_owner", PyVal.str "YES")]),
   ("SNIgetCoverageSummaryBySerialNumbers",
    PyVal.dict [("is_covered", PyVal.str "YES")])]

def c9sd : SerialsDict := [("SN1", c9rec)]

def c9info : List (String × List PyVal) :=
  [("coverage_action_needed", [PyVal.str tss_cov_smartnet_msg]),
   ("api_action_needed", [PyVal.str api_no_action_msg]),
   ("tss_serial", [PyVal.str ""]), ("tss_status", [PyVal.str ""]),
   ("tss_contract", [PyVal.str ""]), ("tss_service_level", [PyVal.str ""])]

def c9sd2 : SerialsDict := [("SN1", c9rec ++ [("tss_info", PyVal.dict [])])]

/-- **C9** (counterexample): running the External Inventory Matcher on a
one-identifier serials dict (and an empty TSS inventory) returns a
serials dict that differs from the input: the record gained a
`tss_info` key. -/
theorem c9_counterexample :
    prepare_report_data_tss c9sd [] = .ok (c9info, c9sd2) ∧ ¬ c9sd2 = c9sd := by
  refine ⟨rfl, fun heq => ?_⟩
  exact Option.noConfusion
    (show (some (PyVal.dict []) : Option PyVal) = none from
      congrArg (fun l : SerialsDict => lookupFirst (l.headD ("", [])).2 "tss_info") heq)

/-- Witness for `c9_tss_mutation_amended` on the concrete run of
`c9_counterexample`'s input: the pre-existing `host` key is untouched. -/
theorem c9_tss_mutation_witness :
    lookupFirst (recSet c9rec "tss_info" (PyVal.dict [])) "host" =
      lookupFirst c9rec "host" :=
  (c9_tss_mutation_amended c9sd [] c9info c9sd2 rfl).2.1 ("SN1", c9rec)
    (List.mem_singleton.mpr rfl) "host" (by decide)

/-! ## Claim C3 — appended rows for unmatched external serials -/

/-- Every successful run of the unmatched-serial loop body carries the
fixed decommissioned classification. -/
theorem tssUnmatchedStep_cov {df : List TssRow} {s : List PyVal} {v : PyVal}
    {r : PyVal × PyVal × List PyVal} (h : tssUnmatchedStep df s v = .ok r) :
    r.1 = PyVal.str tss_cov_remove_msg := by
  rw [tssUnmatchedStep] at h
  split at h
  · cases h
  · split at h
    · cases h
    · rw [Except.ok.injEq] at h
      rw [← h]

/-- A row list whose every first component is `c` projects to a
replicated column. -/
theorem map_fst_replicate {l : List (PyVal × PyVal × List PyVal)} {c : PyVal}
    (h : ∀ r ∈ l, r.1 = c) :
    l.map (fun r => r.1) = List.replicate l.length c := by
  induction l with
  | nil => rfl
  | cons a t ih =>
    rw [List.map_cons, List.length_cons, List.replicate_succ,
      h a (List.mem_cons_self a t), ih (fun r hr => h r (List.mem_cons_of_mem a hr))]

/-- **C3**: on a successful TSS run the matched rows come first, one per
existing identifier in identifier iteration order (row i is the run of
the loop body on identifier i); every external serial with no matching
identifier — taken from the normalized TSS serial list in its original
row order — contributes exactly one appended row whose coverage
classification is the remove-from-inventory label; and the padding step
of `create_pandas_dataframe_for_report` extends every primary-source
column of length (identifier count) with exactly one empty-string
sentinel per appended row, so the synthetic rows hold the empty sentinel
in all primary-source columns. -/
theorem c3_tss_unmatched_append (sd : SerialsDict) (rows : List TssRow)
    (tssSerials : List PyVal) (matched unmatched : List (PyVal × PyVal × List PyVal))
    (hs : tssSerialListOf (tssNormalizeRows rows) = .ok tssSerials)
    (hm : mapME (fun p => tssMatchedStep (tssNormalizeRows rows) tssSerials p.1 p.2) sd
        = .ok matched)
    (hu : mapME (tssUnmatchedStep (tssNormalizeRows rows) tssSerials)
        (tssSerials.filter (fun v => !(tssCellMatchesKey sd v))) = .ok unmatched) :
    prepare_report_data_tss sd rows =
      .ok (tssInfoColumns (matched ++ unmatched),
           sd.map (fun p => (p.1, recSet p.2 "tss_info" (PyVal.dict [])))) ∧
    matched.length = sd.length ∧
    unmatched.length = (tssSerials.filter (fun v => !(tssCellMatchesKey sd v))).length ∧
    (∀ i p, sd.get? i = some p → ∃ r, matched.get? i = some r ∧
        tssMatchedStep (tssNormalizeRows rows) tssSerials p.1 p.2 = .ok r) ∧
    lookupCol (tssInfoColumns (matched ++ unmatched)) "coverage_action_needed" =
      some (matched.map (fun r => r.1) ++
            List.replicate unmatched.length (PyVal.str tss_cov_remove_msg)) ∧
    (∀ (name : String) (col : List PyVal), col.length = sd.length →
      pad_with_empty [(name, col)] ((matched ++ unmatched).length - sd.length) =
        [(name, col ++ List.replicate unmatched.length (PyVal.str ""))]) := by
  have hml := mapME_ok_length hm
  have hul := mapME_ok_length hu
  refine ⟨?_, hml, hul, fun i p hp => mapME_ok_get hm i p hp, ?_, ?_⟩
  · simp only [prepare_report_data_tss, hs, hm, hu]
  · have hcov : ∀ r ∈ unmatched, r.1 = PyVal.str tss_cov_remove_msg :=
      mapME_ok_forall hu _ (fun a b hab => tssUnmatchedStep_cov hab)
    have hmap : (matched ++ unmatched).map (fun r => r.1) =
        matched.map (fun r => r.1) ++
          List.replicate unmatched.length (PyVal.str tss_cov_remove_msg) := by
      rw [List.map_append, map_fst_replicate hcov]
    rw [tssInfoColumns]
    simp only [List.cons_append, lookupCol, beq_self_eq_true, if_pos]
    rw [hmap]
  · intro name col hcol
    have hk : (matched ++ unmatched).length - sd.length = unmatched.length := by
      rw [List.length_append, hml]
      omega
    rw [pad_with_empty, hk]
    rfl

/-- A TSS inventory row matching inventory serial `SN1` (written in
lower case to exercise the case normalization). -/
def c3row1 : TssRow :=
  [("tss_serial", PyVal.str "sn1"), ("tss_oem", PyVal.str "Cisco"),
   ("tss_status", PyVal.str "active"), ("tss_contract", PyVal.str "c1"),
   ("tss_service_level", PyVal.str "gold")]

/-- A TSS inventory row whose serial matches no inventory identifier. -/
def c3row2 : TssRow :=
  [("tss_serial", PyVal.str "ZZZ9"), ("tss_oem", PyVal.str "Cisco"),
   ("tss_status", PyVal.str "old"), ("tss_contract", PyVal.str "c2"),
   ("tss_service_level", PyVal.str "silver")]

def c3matched : List (PyVal × PyVal × List PyVal) :=
  [(PyVal.str tss_cov_both_msg, PyVal.str api_no_action_msg,
    [PyVal.str "SN1", PyVal.str "active", PyVal.str "c1", PyVal.str "gold"])]

def c3unmatched : List (PyVal × PyVal × List PyVal) :=
  [(PyVal.str tss_cov_remove_msg, PyVal.str tss_api_no_data_msg,
    [PyVal.str "ZZZ9", PyVal.str "old", PyVal.str "c2", PyVal.str "silver"])]

/-- Witness for `c3_tss_unmatched_append`: one matched identifier, one
unmatched external serial; the unmatched row is appended after the
matched row with the decommissioned label, and the one-identifier `host`
column is padded with exactly one empty sentinel. -/
theorem c3_tss_unmatched_append_witness :
    prepare_report_data_tss c9sd [c3row1, c3row2] =
      .ok (tssInfoColumns (c3matched ++ c3unmatched),
           [("SN1", c9rec ++ [("tss_info", PyVal.dict [])])]) ∧
    lookupCol (tssInfoColumns (c3matched ++ c3unmatched)) "coverage_action_needed" =
      some [PyVal.str tss_cov_both_msg, PyVal.str tss_cov_remove_msg] ∧
    pad_with_empty [("host", [PyVal.str "sw1"])] ((c3matched ++ c3unmatched).length - 1) =
      [("host", [PyVal.str "sw1", PyVal.str ""])] := by
  obtain ⟨h1, -, -, -, h5, h6⟩ :=
    c3_tss_unmatched_append c9sd [c3row1, c3row2]
      [PyVal.str "SN1", PyVal.str "ZZZ9"] c3matched c3unmatched rfl rfl rfl
  exact ⟨h1, h5, h6 "host" [PyVal.str "sw1"] rfl⟩

/-- Witness for `c4_yes_substring_rule` at the flag values `"YES"` and
`"NO"`: the exact-match values behave as documented. -/
theorem c4_yes_substring_rule_witness :
    api_action_needed_msg "YES" = api_no_action_msg ∧
    coverage_action_needed_msg "NO" = cov_action_msg :=
  ⟨(c4_yes_substring_rule "YES").1.mpr rfl, rfl⟩
